import Mathlib

/-!
Verification of the protocol core of the homebridge-dolphin-pool-cleaner
plugin: the BLE command-frame codec (`src/protocol/commandBuilder.ts` and the
session client's own encoder in `src/api/mqttClient.ts`), the shadow-state
parser (`src/parsers/shadowStateParser.ts` with `filterStatusParser.ts` and
`faultCodeParser.ts`), the credential manager
(`src/api/auth/credentialManager.ts`), the device controller's refresh loop
(`src/devices/dolphinDevice.ts`) and the listener teardown of the MQTT
client's shadow request/response façade.

Hex strings are embedded as lists of nibbles (`Fin 16`), one element per hex
character, so string concatenation in the source is list append here and
`parseInt(s.substring(i, i+2), 16)` is the pairwise walk `hexPairsSum` /
`hexPairsXor`.  JavaScript numbers are embedded as `ℚ` (all arithmetic the
parser performs is exact on the values involved), and `undefined` as
`Option`.
-/

namespace Dolphin

/-! ## Hex-string infrastructure for the BLE command codec -/

/-- One hex character. -/
abbrev Nib := Fin 16

/-- Value of a hex string read in the usual big-endian character order
(the value `parseInt(s, 16)` gives to a plain hex string `s`). -/
def beVal (l : List Nib) : Nat :=
  l.foldl (fun a d => 16 * a + d.val) 0

/-- Little-endian 16-bit read of a 4-hex-char field: the first character
pair is the low byte, the second pair the high byte. -/
def leWord (l : List Nib) : Nat :=
  beVal (l.take 2) + 256 * beVal (l.drop 2)

/-- Hex digits of `n`, least significant first; fuel-driven so that it
kernel-reduces.  Empty for `n = 0`. -/
def hexDigitsRevAux : Nat → Nat → List Nib
  | 0, _ => []
  | fuel + 1, n =>
    if n = 0 then []
    else ⟨n % 16, Nat.mod_lt _ (by norm_num)⟩ :: hexDigitsRevAux fuel (n / 16)

/-- JavaScript `n.toString(16)` for a natural number: minimal big-endian hex
digits, a single digit `0` for zero. -/
def toHexNibbles (n : Nat) : List Nib :=
  if n = 0 then [0] else (hexDigitsRevAux n n).reverse

/-- JavaScript `s.padStart(k, '0')`: left-pad with zero digits up to width
`k`; longer strings are returned unchanged. -/
def padStart (k : Nat) (l : List Nib) : List Nib :=
  List.replicate (k - l.length) 0 ++ l

/-- The byte walk of `calculateChecksum` in `commandBuilder.ts`: sum the
value of each 2-character slice of the hex string (a final lone character
contributes its own value, as `parseInt` of a 1-character slice). -/
def hexPairsSum : List Nib → Nat
  | a :: b :: rest => (16 * a.val + b.val) + hexPairsSum rest
  | [a] => a.val
  | [] => 0

/-- The byte walk of `MQTTClient.calculateChecksum` in `mqttClient.ts`:
XOR of the value of each 2-character slice. -/
def hexPairsXor : List Nib → Nat
  | a :: b :: rest => (16 * a.val + b.val) ^^^ hexPairsXor rest
  | [a] => a.val
  | [] => 0

/-! ## The two checksum functions and the two frame builders -/

/-- Checksum of `commandBuilder.ts` (lines 59-75): 16-bit additive sum of
all bytes, emitted as low byte then high byte (little-endian), each byte as
two hex characters. -/
def calculateChecksum (message : List Nib) : List Nib :=
  let c := hexPairsSum message % 65536
  padStart 2 (toHexNibbles (c % 256)) ++ padStart 2 (toHexNibbles (c / 256 % 256))

/-- Checksum of `MQTTClient.calculateChecksum` (mqttClient.ts lines
448-455): single-byte XOR of all bytes, emitted as two hex characters. -/
def mqttCalculateChecksum (message : List Nib) : List Nib :=
  padStart 2 (toHexNibbles (hexPairsXor message))

/-- A command definition from `ble_commands_iot.json`: the `destination`
(2 bytes) and `opcode` hex strings.  Stored here already lower-cased, so the
`toLowerCase()` in the builders is the identity. -/
structure CommandDefinition where
  destination : List Nib
  opcode : List Nib
deriving DecidableEq

/-- The fixed `message_pattern` part of the command table: the `constant`
fields of `sop_preamble` and `src`. -/
structure MessagePattern where
  sop_preamble : List Nib
  src : List Nib
deriving DecidableEq

/-- The static command table (`ble_commands_iot.json`). -/
structure BLECommandsConfig where
  message_pattern : MessagePattern
  commands : List (String × CommandDefinition)
deriving DecidableEq

/-- Lookup of `getConfig().commands[commandName]`. -/
def getCommandDefinition (cfg : BLECommandsConfig) (commandName : String) :
    Option CommandDefinition :=
  List.lookup commandName cfg.commands

/-- The standalone codec's `buildCommand` (commandBuilder.ts lines 86-124),
returning the `hex` field of the built command: preamble + src +
destination + opcode + 4-hex-char data length + data + checksum.  The data
length is `Math.floor(data.length / 2)` (0 when no data), rendered with
`toString(16).padStart(4, '0')`. -/
def buildCommand (cfg : BLECommandsConfig) (commandName : String)
    (data : Option (List Nib)) : Option (List Nib) :=
  match getCommandDefinition cfg commandName with
  | none => none
  | some cmdDef =>
    let pattern := cfg.message_pattern
    let m1 := pattern.sop_preamble ++ pattern.src ++ cmdDef.destination ++ cmdDef.opcode
    let dataLength := (data.getD []).length / 2
    let m2 := m1 ++ padStart 4 (toHexNibbles dataLength)
    let m3 := m2 ++ data.getD []
    some (m3 ++ calculateChecksum m3)

/-- The session client's `MQTTClient.buildCommand` (mqttClient.ts lines
418-444): identical construction, but the final checksum is the one-byte
XOR checksum. -/
def mqttBuildCommand (cfg : BLECommandsConfig) (commandName : String)
    (data : Option (List Nib)) : Option (List Nib) :=
  match getCommandDefinition cfg commandName with
  | none => none
  | some cmdDef =>
    let pattern := cfg.message_pattern
    let m1 := pattern.sop_preamble ++ pattern.src ++ cmdDef.destination ++ cmdDef.opcode
    let dataLength := (data.getD []).length / 2
    let m2 := m1 ++ padStart 4 (toHexNibbles dataLength)
    let m3 := m2 ++ data.getD []
    some (m3 ++ mqttCalculateChecksum m3)

/-- A representative command table.  The preamble `ab` and source `03` are
the values documented in the builders' own comments; the table data file is
external to the compiled sources, so one concrete entry stands in for it in
concrete evaluations (the general theorems quantify over the table). -/
def sampleConfig : BLECommandsConfig :=
  { message_pattern := { sop_preamble := [0xa, 0xb], src := [0x0, 0x3] }
    commands := [("turnOnRobot", { destination := [0, 0, 0, 0], opcode := [0, 1] })] }

/-! ## JavaScript value helpers for the parser embedding -/

/-- Truthiness of a possibly-undefined JavaScript number: defined and
non-zero. -/
def jsNumTruthy : Option ℚ → Bool
  | some v => v != 0
  | none => false

/-- JavaScript `a || b` where `a` is a possibly-undefined number and `b` a
number: `b` when `a` is undefined or zero. -/
def jsNumOr (a : Option ℚ) (b : ℚ) : ℚ :=
  match a with
  | some v => if v = 0 then b else v
  | none => b

/-- JavaScript `a || b` on two possibly-undefined numbers. -/
def jsOrNum (a b : Option ℚ) : Option ℚ :=
  match a with
  | some v => if v = 0 then b else some v
  | none => b

/-- Truthiness of a possibly-undefined JavaScript string: defined and
non-empty. -/
def jsStrTruthy : Option String → Bool
  | some s => !s.isEmpty
  | none => false

/-- JavaScript `a || b` where `a` is a possibly-undefined string. -/
def jsOrStr (a : Option String) (b : String) : String :=
  match a with
  | some s => if s.isEmpty then b else s
  | none => b

/-- JavaScript `s.toLowerCase()` (ASCII, which covers every string the
parser compares against). -/
def jsToLower (s : String) : String :=
  s.map Char.toLower

/-- Value of a hex character for `parseInt(_, 16)`. -/
def hexCharVal (c : Char) : Option ℕ :=
  if '0' ≤ c ∧ c ≤ '9' then some (c.toNat - 48)
  else if 'a' ≤ c ∧ c ≤ 'f' then some (c.toNat - 87)
  else if 'A' ≤ c ∧ c ≤ 'F' then some (c.toNat - 55)
  else none

/-- Drop a leading `0x` / `0X`, which radix-16 `parseInt` accepts. -/
def stripHex0x (cs : List Char) : List Char :=
  match cs with
  | '0' :: 'x' :: rest => rest
  | '0' :: 'X' :: rest => rest
  | _ => cs

/-- Value of the longest valid hex-digit run at the head of the character
list; `none` (NaN) when there is no valid leading digit. -/
def hexLeadVal (cs : List Char) : Option ℕ :=
  let ds := cs.takeWhile (fun c => (hexCharVal c).isSome)
  if ds.isEmpty then none
  else some (ds.foldl (fun a c => 16 * a + (hexCharVal c).getD 0) 0)

/-- JavaScript `parseInt(s, 16)`: optional sign, optional `0x` marker, then
the longest hex-digit run; `none` models `NaN`. -/
def jsParseInt16 (s : String) : Option ℤ :=
  match s.toList with
  | '-' :: rest => (hexLeadVal (stripHex0x rest)).map (fun n => -(n : ℤ))
  | '+' :: rest => (hexLeadVal (stripHex0x rest)).map (fun n => (n : ℤ))
  | cs => (hexLeadVal (stripHex0x cs)).map (fun n => (n : ℤ))

/-! ## Constants (`src/config/constants.ts`) -/

def DEFAULT_CYCLE_TIME_MINUTES : ℚ := 120

def MIN_VALID_UNIX_TIMESTAMP : ℚ := 1000000000

def SECONDS_PER_MINUTE : ℚ := 60

def ERROR_CODE_NOT_APPLICABLE : ℚ := 65535

def ERROR_CODE_NO_ERROR : ℚ := 255

def FILTER_NEEDS_CLEANING_THRESHOLD : ℚ := 80

def CREDENTIAL_REFRESH_BUFFER_MS : ℤ := 60 * 60 * 1000

def ROBOT_STATES_OFF : ℚ := 0x00

def ROBOT_STATES_SCANNING : ℚ := 0x02

def ROBOT_STATES_CLEANING : ℚ := 0x03

def ROBOT_STATES_CLEANING_PAUSE : ℚ := 0x0b

def PWS_STATES_OFF : ℚ := 0x00

def PWS_STATES_PROGRAMMING : ℚ := 0x03

def PWS_STATES_ERROR : ℚ := 0x04

def PWS_STATES_CLEANING : ℚ := 0x05

def PWS_STATES_IDLE : ℚ := 0x06

/-! ## Raw shadow data model (`src/parsers/types.ts`) -/

/-- Filter-related shadow data (multiple formats). -/
structure FilterData where
  state : Option ℚ := none
  filterState : Option String := none
  filterLevel : Option ℚ := none
  resetFBI : Option Bool := none
deriving DecidableEq

/-- Robot or power-supply error data. -/
structure RobotErrorData where
  errorCode : Option ℚ := none
  turnOnCount : Option ℚ := none
  pcbHours : Option ℚ := none
  pcbMin : Option ℚ := none
  faultValue1 : Option ℚ := none
deriving DecidableEq

/-- System state (new format). -/
structure SystemStateData where
  pwsState : Option String := none
  robotState : Option String := none
  isBusy : Option Bool := none
  rTurnOnCount : Option ℚ := none
deriving DecidableEq

/-- Robot state (alternative new format). -/
structure RobotStateData where
  isOn : Option Bool := none
  pwsState : Option String := none
deriving DecidableEq

/-- An hours/minutes pair as found under `cycleTimeRemaining` and
`delayedOperation.time`. -/
structure HoursMinutes where
  hours : Option ℚ := none
  minutes : Option ℚ := none
deriving DecidableEq

/-- Cleaning-mode info under `cycleInfo`. -/
structure CleaningModeInfo where
  mode : Option String := none
  cycleTime : Option ℚ := none
deriving DecidableEq

/-- Cycle info (new format). -/
structure CycleInfoData where
  cycleStartTime : Option ℚ := none
  cycleStartTimeUTC : Option ℚ := none
  cycleState : Option String := none
  cleaningMode : Option CleaningModeInfo := none
  cycleTimeRemaining : Option HoursMinutes := none
deriving DecidableEq

/-- Connectivity info. -/
structure ConnectionData where
  connected : Option Bool := none
deriving DecidableEq

/-- Water temperature info. -/
structure TemperatureData where
  temperature : Option ℚ := none
  unit : Option String := none
deriving DecidableEq

/-- LED info. -/
structure LEDData where
  ledEnable : Option Bool := none
  ledIntensity : Option ℚ := none
deriving DecidableEq

/-- Weekly timer info. -/
structure WeeklyTimerData where
  enabled : Option Bool := none
deriving DecidableEq

/-- Delayed operation info. -/
structure DelayedOperationData where
  enabled : Option Bool := none
  time : Option HoursMinutes := none
deriving DecidableEq

/-- Legacy fault-code object. -/
structure FaultCodesData where
  faultCode : Option ℚ := none
  faultDescription : Option String := none
deriving DecidableEq

/-- The legacy `cleaning_mode` field is `number | string`. -/
inductive CleaningModeField where
  | num (n : ℚ)
  | str (s : String)
deriving DecidableEq

/-- The `state.reported` section of a raw shadow. -/
structure RawShadowReported where
  isConnected : Option ConnectionData := none
  systemState : Option SystemStateData := none
  robotState : Option RobotStateData := none
  cycleInfo : Option CycleInfoData := none
  inwatTemperature : Option TemperatureData := none
  filterBagIndication : Option FilterData := none
  filterIndicator : Option FilterData := none
  robotError : Option RobotErrorData := none
  pwsError : Option RobotErrorData := none
  faultCodes : Option FaultCodesData := none
  led : Option LEDData := none
  weeklyTimer : Option WeeklyTimerData := none
  delayedOperation : Option DelayedOperationData := none
  mu_state : Option ℚ := none
  sm_state : Option ℚ := none
  cleaning_mode : Option CleaningModeField := none
  filter_state : Option ℚ := none
  temperature : Option ℚ := none
  is_smart : Option Bool := none
  cycle_info : Option String := none
  faults : Option String := none
deriving DecidableEq

/-- The `state` member of a raw shadow. -/
structure RawShadowStateInner where
  reported : Option RawShadowReported := none
deriving DecidableEq

/-- A raw shadow object. -/
structure RawShadowState where
  version : Option ℚ := none
  state : Option RawShadowStateInner := none
deriving DecidableEq

/-- A value arriving at `parseShadowState`'s public interface: either not an
object at all (`null`, `undefined`, a primitive) or a shadow object. -/
inductive ShadowPayload where
  | nullish
  | obj (s : RawShadowState)
deriving DecidableEq

/-- Filter status vocabulary. -/
inductive FilterStatus where
  | ok
  | needs_cleaning
  | unknown
deriving DecidableEq

/-- Fault information. -/
structure FaultInfo where
  code : ℚ
  description : String
  isActive : Bool
  turnOnCount : Option ℚ := none
deriving DecidableEq

/-- The canonical parsed robot state.  `cycleStartTime` (a `Date` in the
source) is kept as its epoch-millisecond value. -/
structure ParsedRobotState where
  connected : Bool
  muState : ℚ
  pwsState : ℚ
  isCleaning : Bool
  cleaningMode : String
  cycleTime : ℚ
  cycleTimeRemaining : ℚ
  filterStatus : FilterStatus
  temperature : Option ℚ := none
  isSmartMode : Option Bool := none
  cycleStartTime : Option ℚ := none
  faultCode : Option ℚ := none
  faultDescription : Option String := none
  ledEnabled : Option Bool := none
  ledIntensity : Option ℚ := none
  weeklyEnabled : Option Bool := none
  delayEnabled : Option Bool := none
  delayTime : Option ℚ := none
deriving DecidableEq

/-- A `Partial` of `ParsedRobotState`: every field possibly absent.  A field
the source sets to an explicitly `undefined` value is `none` here, which is
exactly how `mergeState` treats it. -/
structure RobotStateUpdate where
  connected : Option Bool := none
  muState : Option ℚ := none
  pwsState : Option ℚ := none
  isCleaning : Option Bool := none
  cleaningMode : Option String := none
  cycleTime : Option ℚ := none
  cycleTimeRemaining : Option ℚ := none
  filterStatus : Option FilterStatus := none
  temperature : Option ℚ := none
  isSmartMode : Option Bool := none
  cycleStartTime : Option ℚ := none
  faultCode : Option ℚ := none
  faultDescription : Option String := none
  ledEnabled : Option Bool := none
  ledIntensity : Option ℚ := none
  weeklyEnabled : Option Bool := none
  delayEnabled : Option Bool := none
  delayTime : Option ℚ := none
deriving DecidableEq

/-! ## String tables of `shadowStateParser.ts` -/

def CLEANING_ROBOT_STATES : List String :=
  ["scanning", "cleaning", "running", "active"]

def FINISHED_ROBOT_STATES : List String :=
  ["finished", "idle", "off", "notconnected"]

def IDLE_PWS_STATES : List String :=
  ["off", "idle", "holdweekly", "holddelay", "programming", "error"]

/-- `MODE_STRING_MAP` lookup. -/
def MODE_STRING_MAP (s : String) : Option String :=
  if s = "standard" then some "all"
  else if s = "regular" then some "all"
  else if s = "all" then some "all"
  else if s = "fast" then some "short"
  else if s = "short" then some "short"
  else if s = "floor" then some "floor"
  else if s = "floor_only" then some "floor"
  else if s = "wall" then some "wall"
  else if s = "walls" then some "wall"
  else if s = "waterline" then some "water"
  else if s = "water" then some "water"
  else if s = "ultra" then some "ultra"
  else if s = "ultra_clean" then some "ultra"
  else none

/-- `PWS_STATE_MAP` lookup. -/
def PWS_STATE_MAP (s : String) : Option ℚ :=
  if s = "off" then some PWS_STATES_OFF
  else if s = "idle" then some PWS_STATES_IDLE
  else if s = "holdweekly" then some PWS_STATES_IDLE
  else if s = "holddelay" then some PWS_STATES_IDLE
  else if s = "programming" then some PWS_STATES_PROGRAMMING
  else if s = "cleaning" then some PWS_STATES_CLEANING
  else if s = "error" then some PWS_STATES_ERROR
  else none

/-- `NUMERIC_MODE_MAP` lookup. -/
def NUMERIC_MODE_MAP (n : ℚ) : Option String :=
  if n = 0 then some "all"
  else if n = 1 then some "short"
  else if n = 2 then some "floor"
  else if n = 3 then some "wall"
  else if n = 4 then some "water"
  else if n = 5 then some "ultra"
  else if n = 6 then some "cove"
  else if n = 7 then some "spot"
  else if n = 8 then some "tictac"
  else if n = 9 then some "pickup"
  else if n = 10 then some "custom"
  else if n = 11 then some "stairs"
  else none

def CLEANING_MU_STATES : List ℚ :=
  [ROBOT_STATES_SCANNING, ROBOT_STATES_CLEANING, ROBOT_STATES_CLEANING_PAUSE]

/-! ## Filter status parser (`src/parsers/filterStatusParser.ts`) -/

/-- `parseFilterStatus(filterBagData?, filterIndicatorData?)`. -/
def parseFilterStatus (filterBagData filterIndicatorData : Option FilterData) :
    FilterStatus :=
  match filterBagData.orElse (fun _ => filterIndicatorData) with
  | none => .ok
  | some filterData =>
    match filterData.state with
    | some numericState =>
      if numericState > FILTER_NEEDS_CLEANING_THRESHOLD then .needs_cleaning else .ok
    | none =>
      let byName : Option FilterStatus :=
        match filterData.filterState with
        | some fs =>
          if fs.isEmpty then none
          else
            let stateStr := jsToLower fs
            if stateStr = "clean" ∨ stateStr = "ok" then some .ok
            else if stateStr = "dirty" ∨ stateStr = "needs_cleaning" ∨ stateStr = "full" then
              some .needs_cleaning
            else none
        | none => none
      match byName with
      | some r => r
      | none =>
        match filterData.filterLevel with
        | some filterLevel => if filterLevel > 0 then .needs_cleaning else .ok
        | none => .ok

/-- `parseLegacyFilterStatus(filterState?)`. -/
def parseLegacyFilterStatus (filterState : Option ℚ) : FilterStatus :=
  match filterState with
  | none => .ok
  | some v => if v > 0 then .needs_cleaning else .ok

/-! ## Fault code parser (`src/parsers/faultCodeParser.ts`) -/

/-- `FAULT_DESCRIPTIONS` table lookup. -/
def FAULT_DESCRIPTIONS (code : ℚ) : Option String :=
  if code = 1 then some "Motor fault"
  else if code = 2 then some "Robot out of water"
  else if code = 3 then some "Communication error"
  else if code = 4 then some "Filter blocked"
  else if code = 5 then some "Impeller blocked"
  else if code = 6 then some "Overheating"
  else none

/-- `getFaultDescription(code)`. -/
def getFaultDescription (code : ℚ) : String :=
  jsOrStr (FAULT_DESCRIPTIONS code) ("Unknown fault (" ++ toString code ++ ")")

/-- The reserved no-fault sentinel codes. -/
def NO_ERROR_CODES : List ℚ :=
  [0, ERROR_CODE_NO_ERROR, ERROR_CODE_NOT_APPLICABLE]

/-- `isRealErrorCode(errorCode?)`. -/
def isRealErrorCode (errorCode : Option ℚ) : Bool :=
  match errorCode with
  | none => false
  | some v => !(NO_ERROR_CODES.contains v)

/-- `isCurrentSessionError(errorTurnOnCount?, currentTurnOnCount?)`: fails
open to `true` when either counter is missing. -/
def isCurrentSessionError (errorTurnOnCount currentTurnOnCount : Option ℚ) : Bool :=
  match currentTurnOnCount, errorTurnOnCount with
  | none, _ => true
  | _, none => true
  | some c, some e =>
    if e = ERROR_CODE_NOT_APPLICABLE then true else decide (e ≥ c)

/-- `parseRobotError(robotError?, currentTurnOnCount?, isPwsError)`. -/
def parseRobotError (robotError : Option RobotErrorData)
    (currentTurnOnCount : Option ℚ) (isPwsError : Bool) : Option FaultInfo :=
  match robotError with
  | none => none
  | some re =>
    if isRealErrorCode re.errorCode then
      let isCurrentSession := isCurrentSessionError re.turnOnCount currentTurnOnCount
      let isActive := isCurrentSession || isPwsError
      if isActive then
        some { code := re.errorCode.getD 0
               description := getFaultDescription (re.errorCode.getD 0)
               isActive := true
               turnOnCount := re.turnOnCount }
      else none
    else none

/-- `parsePwsError(pwsError?, currentTurnOnCount?)`. -/
def parsePwsError (pwsError : Option RobotErrorData)
    (currentTurnOnCount : Option ℚ) : Option FaultInfo :=
  match pwsError with
  | none => none
  | some pe =>
    if isRealErrorCode pe.errorCode then
      if isCurrentSessionError pe.turnOnCount currentTurnOnCount then
        some { code := pe.errorCode.getD 0
               description := getFaultDescription (pe.errorCode.getD 0)
               isActive := true
               turnOnCount := pe.turnOnCount }
      else none
    else none

/-- `parseLegacyFaultCodes(faultCode?, faultDescription?)`. -/
def parseLegacyFaultCodes (faultCode : Option ℚ)
    (faultDescription : Option String) : Option FaultInfo :=
  if isRealErrorCode faultCode then
    some { code := faultCode.getD 0
           description := jsOrStr faultDescription (getFaultDescription (faultCode.getD 0))
           isActive := true }
  else none

/-- `parseFaultsHexString(faults?)` (legacy BLE hex string). -/
def parseFaultsHexString (faults : Option String) : Option FaultInfo :=
  match faults with
  | none => none
  | some s =>
    if s.isEmpty then none
    else
      match jsParseInt16 (s.take 2) with
      | some v =>
        if v > 0 then
          some { code := (v : ℚ)
                 description := getFaultDescription (v : ℚ)
                 isActive := true }
        else none
      | none => none

/-- `parseAllFaults(robotError?, pwsError?, faultCodes?, systemState?)`:
robot error first, then power-supply error, then the legacy object. -/
def parseAllFaults (robotError pwsError : Option RobotErrorData)
    (faultCodes : Option FaultCodesData)
    (systemState : Option SystemStateData) : Option FaultInfo :=
  let currentTurnOnCount := systemState.bind (fun s => s.rTurnOnCount)
  let isPwsError := decide (systemState.bind (fun s => s.pwsState) = some "error")
  match parseRobotError robotError currentTurnOnCount isPwsError with
  | some robotFault => some robotFault
  | none =>
    match parsePwsError pwsError currentTurnOnCount with
    | some pwsFault => some pwsFault
    | none =>
      match faultCodes with
      | some fc => parseLegacyFaultCodes fc.faultCode fc.faultDescription
      | none => none

/-! ## Shadow state parser (`src/parsers/shadowStateParser.ts`) -/

/-- `createDefaultState()`. -/
def createDefaultState : ParsedRobotState :=
  { connected := false
    muState := ROBOT_STATES_OFF
    pwsState := PWS_STATES_OFF
    isCleaning := false
    cleaningMode := "all"
    cycleTime := DEFAULT_CYCLE_TIME_MINUTES
    cycleTimeRemaining := 0
    filterStatus := .ok }

/-- `parseCleaningMode(mode?)`. -/
def parseCleaningMode (mode : Option CleaningModeField) : String :=
  match mode with
  | none => "all"
  | some (.str s) =>
    let modeStr := jsToLower s
    jsOrStr (MODE_STRING_MAP modeStr) modeStr
  | some (.num n) => (NUMERIC_MODE_MAP n).getD "all"

/-- `isCleaningMuState(muState)`. -/
def isCleaningMuState (muState : ℚ) : Bool :=
  CLEANING_MU_STATES.contains muState

/-- Connection-status block of `parseNewFormat`. -/
def newConnectionStep (reported : RawShadowReported) (state : RobotStateUpdate) :
    RobotStateUpdate :=
  match reported.isConnected with
  | some ic => { state with connected := some (decide (ic.connected = some true)) }
  | none => state

/-- System-state block of `parseNewFormat`. -/
def newSystemStateStep (reported : RawShadowReported) (state : RobotStateUpdate) :
    RobotStateUpdate :=
  match reported.systemState with
  | none => state
  | some ss =>
    let sysPwsState := ss.pwsState.map jsToLower
    let state :=
      if jsStrTruthy sysPwsState && IDLE_PWS_STATES.contains (sysPwsState.getD "") then
        { state with isCleaning := some false }
      else if sysPwsState = some "cleaning" then
        { state with isCleaning := some true }
      else state
    let state :=
      match ss.robotState with
      | none => state
      | some sysRobotState =>
        if sysRobotState.isEmpty then state
        else
          let robotStateStr := jsToLower sysRobotState
          if CLEANING_ROBOT_STATES.contains robotStateStr then
            { state with isCleaning := some true }
          else if FINISHED_ROBOT_STATES.contains robotStateStr then
            { state with isCleaning := some false }
          else state
    let state :=
      if jsStrTruthy sysPwsState then
        match PWS_STATE_MAP (sysPwsState.getD "") with
        | some v => { state with pwsState := some v }
        | none => state
      else state
    state

/-- Alternative robot-state block of `parseNewFormat`. -/
def newRobotStateStep (reported : RawShadowReported) (state : RobotStateUpdate) :
    RobotStateUpdate :=
  match reported.robotState with
  | none => state
  | some rs =>
    let robotIsOn := decide (rs.isOn = some true)
    let robotPwsState := rs.pwsState.map jsToLower
    let state :=
      if robotPwsState = some "cleaning" ∨ robotPwsState = some "running" then
        { state with isCleaning := some true }
      else if state.isCleaning = none then
        { state with isCleaning := some robotIsOn }
      else state
    let state :=
      if jsStrTruthy robotPwsState then
        match PWS_STATE_MAP (robotPwsState.getD "") with
        | some v => { state with pwsState := some v }
        | none => state
      else state
    state

/-- Cycle-info block of `parseNewFormat`: validated cycle-start timestamp,
cycle state, cleaning mode and the alternative hours/minutes
`cycleTimeRemaining` object, in source order. -/
def newCycleInfoStep (reported : RawShadowReported) (now : ℤ)
    (state : RobotStateUpdate) : RobotStateUpdate :=
  match reported.cycleInfo with
  | none => state
  | some ci =>
    let cycleStartTime := jsOrNum ci.cycleStartTimeUTC ci.cycleStartTime
    let state :=
      if jsNumTruthy cycleStartTime && decide (cycleStartTime.getD 0 > MIN_VALID_UNIX_TIMESTAMP) then
        let cst := cycleStartTime.getD 0
        let cycleTime := jsNumOr (ci.cleaningMode.bind (fun cm => cm.cycleTime))
          DEFAULT_CYCLE_TIME_MINUTES
        let elapsedMinutes : ℚ := ((now : ℚ) - cst) / SECONDS_PER_MINUTE
        if decide (elapsedMinutes ≥ 0) && decide (elapsedMinutes < cycleTime) then
          { state with
              isCleaning := some true
              cycleStartTime := some (cst * 1000)
              cycleTimeRemaining := some (max 0 (cycleTime - elapsedMinutes)) }
        else state
      else state
    let state :=
      let cycleState := ci.cycleState.map jsToLower
      if jsStrTruthy cycleState && decide (cycleState ≠ some "idle") then
        { state with
            isCleaning := some (CLEANING_ROBOT_STATES.contains (cycleState.getD "")) }
      else state
    let state :=
      match ci.cleaningMode with
      | none => state
      | some cm =>
        let state :=
          match cm.mode.map jsToLower with
          | some modeStr =>
            if modeStr.isEmpty then state
            else { state with cleaningMode := some (jsOrStr (MODE_STRING_MAP modeStr) modeStr) }
          | none => state
        let state :=
          if jsNumTruthy cm.cycleTime then
            { state with cycleTime := some (cm.cycleTime.getD 0) }
          else state
        state
    let state :=
      match ci.cycleTimeRemaining with
      | none => state
      | some remaining =>
        { state with
            cycleTimeRemaining :=
              some (jsNumOr remaining.hours 0 * SECONDS_PER_MINUTE + jsNumOr remaining.minutes 0) }
    state

/-- Water-temperature block of `parseNewFormat`. -/
def newTemperatureStep (reported : RawShadowReported) (state : RobotStateUpdate) :
    RobotStateUpdate :=
  match reported.inwatTemperature.bind (fun t => t.temperature) with
  | some v => { state with temperature := some v }
  | none => state

/-- Filter-status assignment of `parseNewFormat` (unconditional). -/
def newFilterStep (reported : RawShadowReported) (state : RobotStateUpdate) :
    RobotStateUpdate :=
  { state with
      filterStatus := some (parseFilterStatus reported.filterBagIndication reported.filterIndicator) }

/-- Fault-code block of `parseNewFormat`. -/
def newFaultStep (reported : RawShadowReported) (state : RobotStateUpdate) :
    RobotStateUpdate :=
  match parseAllFaults reported.robotError reported.pwsError reported.faultCodes
      reported.systemState with
  | some fault =>
    { state with faultCode := some fault.code, faultDescription := some fault.description }
  | none => state

/-- LED block of `parseNewFormat`. -/
def newLedStep (reported : RawShadowReported) (state : RobotStateUpdate) :
    RobotStateUpdate :=
  match reported.led with
  | some led => { state with ledEnabled := led.ledEnable, ledIntensity := led.ledIntensity }
  | none => state

/-- Weekly-timer block of `parseNewFormat`. -/
def newWeeklyStep (reported : RawShadowReported) (state : RobotStateUpdate) :
    RobotStateUpdate :=
  match reported.weeklyTimer with
  | some wt => { state with weeklyEnabled := wt.enabled }
  | none => state

/-- Delayed-operation block of `parseNewFormat`. -/
def newDelayStep (reported : RawShadowReported) (state : RobotStateUpdate) :
    RobotStateUpdate :=
  match reported.delayedOperation with
  | none => state
  | some d =>
    let state := { state with delayEnabled := d.enabled }
    match d.time with
    | some t =>
      { state with
          delayTime :=
            some (jsNumOr t.hours 0 * SECONDS_PER_MINUTE + jsNumOr t.minutes 0) }
    | none => state

/-- `parseNewFormat(reported)`, with `now` the seconds value
`Math.floor(Date.now() / 1000)` read inside the cycle-info branch; the
blocks run in source order on a fresh empty partial state. -/
def parseNewFormat (reported : RawShadowReported) (now : ℤ) : RobotStateUpdate :=
  newDelayStep reported
    (newWeeklyStep reported
      (newLedStep reported
        (newFaultStep reported
          (newFilterStep reported
            (newTemperatureStep reported
              (newCycleInfoStep reported now
                (newRobotStateStep reported
                  (newSystemStateStep reported
                    (newConnectionStep reported {})))))))))

/-- Motor-unit state block of `parseLegacyFormat`. -/
def legacyMuStep (reported : RawShadowReported) (state : RobotStateUpdate) :
    RobotStateUpdate :=
  match reported.mu_state with
  | some v => { state with muState := some v, isCleaning := some (isCleaningMuState v) }
  | none => state

/-- State-machine state block of `parseLegacyFormat`. -/
def legacySmStep (reported : RawShadowReported) (state : RobotStateUpdate) :
    RobotStateUpdate :=
  match reported.sm_state with
  | some v => { state with pwsState := some v }
  | none => state

/-- Cleaning-mode block of `parseLegacyFormat`. -/
def legacyCleaningModeStep (reported : RawShadowReported) (state : RobotStateUpdate) :
    RobotStateUpdate :=
  match reported.cleaning_mode with
  | some m => { state with cleaningMode := some (parseCleaningMode (some m)) }
  | none => state

/-- Filter-state block of `parseLegacyFormat`. -/
def legacyFilterStep (reported : RawShadowReported) (state : RobotStateUpdate) :
    RobotStateUpdate :=
  match reported.filter_state with
  | some v => { state with filterStatus := some (parseLegacyFilterStatus (some v)) }
  | none => state

/-- Temperature block of `parseLegacyFormat` (tenths of degrees). -/
def legacyTemperatureStep (reported : RawShadowReported) (state : RobotStateUpdate) :
    RobotStateUpdate :=
  match reported.temperature with
  | some v => { state with temperature := some (v / 10) }
  | none => state

/-- Smart-mode block of `parseLegacyFormat`. -/
def legacySmartStep (reported : RawShadowReported) (state : RobotStateUpdate) :
    RobotStateUpdate :=
  match reported.is_smart with
  | some v => { state with isSmartMode := some v }
  | none => state

/-- Cycle-info hex-string block of `parseLegacyFormat`. -/
def legacyCycleInfoStep (reported : RawShadowReported) (state : RobotStateUpdate) :
    RobotStateUpdate :=
  match reported.cycle_info with
  | none => state
  | some s =>
    if s.isEmpty then state
    else if s.length ≥ 4 then
      match jsParseInt16 (s.take 4) with
      | some elapsed =>
        let totalMinutes := jsNumOr state.cycleTime DEFAULT_CYCLE_TIME_MINUTES
        { state with cycleTimeRemaining := some (max 0 (totalMinutes - (elapsed : ℚ))) }
      | none => state
    else state

/-- Faults hex-string block of `parseLegacyFormat`. -/
def legacyFaultsStep (reported : RawShadowReported) (state : RobotStateUpdate) :
    RobotStateUpdate :=
  match reported.faults with
  | some s =>
    match parseFaultsHexString (some s) with
    | some fault =>
      { state with faultCode := some fault.code, faultDescription := some fault.description }
    | none => state
  | none => state

/-- `parseLegacyFormat(reported)`: the blocks run in source order on a fresh
empty partial state. -/
def parseLegacyFormat (reported : RawShadowReported) : RobotStateUpdate :=
  legacyFaultsStep reported
    (legacyCycleInfoStep reported
      (legacySmartStep reported
        (legacyTemperatureStep reported
          (legacyFilterStep reported
            (legacyCleaningModeStep reported
              (legacySmStep reported
                (legacyMuStep reported {})))))))

/-- The cycle time the validated-timestamp branch of the cycle-info block
works with: `cycleInfo.cleaningMode?.cycleTime || DEFAULT_CYCLE_TIME_MINUTES`. -/
def newFormatCycleTime (reported : RawShadowReported) : ℚ :=
  jsNumOr ((reported.cycleInfo.bind (fun ci => ci.cleaningMode)).bind (fun cm => cm.cycleTime))
    DEFAULT_CYCLE_TIME_MINUTES

/-- `mergeState(existing, updates)`: copy exactly the defined fields of the
update over the existing state. -/
def mergeState (existing : ParsedRobotState) (updates : RobotStateUpdate) :
    ParsedRobotState :=
  { connected := updates.connected.getD existing.connected
    muState := updates.muState.getD existing.muState
    pwsState := updates.pwsState.getD existing.pwsState
    isCleaning := updates.isCleaning.getD existing.isCleaning
    cleaningMode := updates.cleaningMode.getD existing.cleaningMode
    cycleTime := updates.cycleTime.getD existing.cycleTime
    cycleTimeRemaining := updates.cycleTimeRemaining.getD existing.cycleTimeRemaining
    filterStatus := updates.filterStatus.getD existing.filterStatus
    temperature := (updates.temperature.map some).getD existing.temperature
    isSmartMode := (updates.isSmartMode.map some).getD existing.isSmartMode
    cycleStartTime := (updates.cycleStartTime.map some).getD existing.cycleStartTime
    faultCode := (updates.faultCode.map some).getD existing.faultCode
    faultDescription := (updates.faultDescription.map some).getD existing.faultDescription
    ledEnabled := (updates.ledEnabled.map some).getD existing.ledEnabled
    ledIntensity := (updates.ledIntensity.map some).getD existing.ledIntensity
    weeklyEnabled := (updates.weeklyEnabled.map some).getD existing.weeklyEnabled
    delayEnabled := (updates.delayEnabled.map some).getD existing.delayEnabled
    delayTime := (updates.delayTime.map some).getD existing.delayTime }

/-- The empty update `{}` (no field present). -/
def emptyUpdate : RobotStateUpdate := {}

/-- `parseShadowState(shadow, existingState?)`, with `now` threaded to the
cycle-info branch. -/
def parseShadowState (shadow : ShadowPayload) (existingState : Option ParsedRobotState)
    (now : ℤ) : ParsedRobotState :=
  let state := existingState.getD createDefaultState
  match shadow with
  | .nullish => state
  | .obj typedShadow =>
    match typedShadow.state.bind (fun st => st.reported) with
    | none => state
    | some reported =>
      let newFormatState := parseNewFormat reported now
      let merged := mergeState state newFormatState
      let legacyState := parseLegacyFormat reported
      mergeState merged legacyState

/-- `getShadowVersion(shadow)`. -/
def getShadowVersion (shadow : ShadowPayload) : Option ℚ :=
  match shadow with
  | .nullish => none
  | .obj s => s.version

/-- The `state?.reported` member of a payload, `none` when the payload is
not an object or lacks it. -/
def shadowReported (shadow : ShadowPayload) : Option RawShadowReported :=
  match shadow with
  | .nullish => none
  | .obj s => s.state.bind (fun st => st.reported)

/-! ## Credential manager (`src/api/auth/credentialManager.ts`) -/

/-- AWS IoT temporary credentials; `expiration` is the `Date` kept as epoch
milliseconds. -/
structure AWSIoTCredentials where
  accessKeyId : String
  secretAccessKey : String
  sessionToken : String
  expiration : ℤ
deriving DecidableEq

/-- The private fields of `CredentialManager`. -/
structure CredentialManagerState where
  cognitoToken : Option String := none
  mobToken : Option String := none
  awsCredentials : Option AWSIoTCredentials := none
  serialNumber : Option String := none
  robotName : Option String := none
  deviceType : Option ℚ := none
deriving DecidableEq

/-- `needsRefresh()` (credentialManager.ts lines 89-96), with `now` the
value of `Date.now()`: true when no credentials are stored or
`expiration < now + CREDENTIAL_REFRESH_BUFFER_MS` (a strict `Date`
comparison in the source). -/
def needsRefresh (m : CredentialManagerState) (now : ℤ) : Bool :=
  match m.awsCredentials with
  | none => true
  | some c => decide (c.expiration < now + CREDENTIAL_REFRESH_BUFFER_MS)

/-- `hasValidCredentials()` (credentialManager.ts lines 101-107): true when
credentials are stored and `expiration > now`. -/
def hasValidCredentials (m : CredentialManagerState) (now : ℤ) : Bool :=
  match m.awsCredentials with
  | none => false
  | some c => decide (c.expiration > now)

/-! ## Device controller refresh loop (`src/devices/dolphinDevice.ts`) -/

/-- Events the controller emits during `refreshState`. -/
inductive DeviceEvent where
  | stateChange
  | disconnect
deriving DecidableEq

/-- The controller state `refreshState` touches. -/
structure DolphinDeviceState where
  state : ParsedRobotState
  lastShadowVersion : Option ℚ := none
  hasTemperatureSensor : Bool := true
deriving DecidableEq

/-- Outcome of `api.getThingShadow`: a rejection (`err`), a falsy resolution
(`ok none`), or a shadow value (`ok (some _)`). -/
inductive FetchResult where
  | err
  | ok (shadow : Option ShadowPayload)
deriving DecidableEq

/-- `processShadowState(shadow)`: skip when the version repeats, else merge
the parsed shadow over the current state, clearing the temperature for
models without the sensor. -/
def processShadowState (d : DolphinDeviceState) (shadow : ShadowPayload)
    (now : ℤ) : DolphinDeviceState :=
  let version := getShadowVersion shadow
  if version.isSome ∧ version = d.lastShadowVersion then d
  else
    let d' := { d with lastShadowVersion := version }
    let parsedState := parseShadowState shadow (some d'.state) now
    let parsedState :=
      if !d'.hasTemperatureSensor then { parsedState with temperature := none }
      else parsedState
    { d' with state := parsedState }

/-- `refreshState()` (dolphinDevice.ts lines 106-121), as a step function
from the fetch outcome: on a truthy shadow, process it, force
`connected := true` and emit `stateChange`; on a falsy shadow, do nothing;
on failure, flip `connected` to false and emit `disconnect` only when the
state was connected. -/
def refreshState (d : DolphinDeviceState) (r : FetchResult) (now : ℤ) :
    DolphinDeviceState × List DeviceEvent :=
  match r with
  | .ok (some shadow) =>
    let d' := processShadowState d shadow now
    let d'' := { d' with state := { d'.state with connected := true } }
    (d'', [.stateChange])
  | .ok none => (d, [])
  | .err =>
    if d.state.connected then
      ({ d with state := { d.state with connected := false } }, [.disconnect])
    else (d, [])

/-- Run `n` consecutive failed polls, counting the emitted `disconnect`
events. -/
def runRefreshFailures : ℕ → DolphinDeviceState → DolphinDeviceState × ℕ
  | 0, d => (d, 0)
  | n + 1, d =>
    let step := refreshState d .err 0
    let rest := runRefreshFailures n step.1
    (rest.1, step.2.count .disconnect + rest.2)

/-! ## Shadow request listener teardown (`src/api/mqttClient.ts`) -/

/-- Event names of the session client relevant to the shadow façade. -/
inductive MqttEventName where
  | shadowUpdate
  | shadowRejected
  | dynamicMessage
deriving DecidableEq

/-- A registered listener, identified by its owner (the registering call or
subscriber) and the event it listens on. -/
structure EventListener where
  owner : ℕ
  event : MqttEventName
deriving DecidableEq

/-- `emitter.removeAllListeners(event)`: drops every listener of the event,
whoever registered it. -/
def removeAllListeners (e : MqttEventName) (ls : List EventListener) :
    List EventListener :=
  ls.filter (fun l => l.event != e)

/-- How the race inside `getShadow` / `updateShadow` settles. -/
inductive ShadowRaceOutcome where
  | accepted
  | rejected
  | timedOut
deriving DecidableEq

/-- The two `once` listeners a `getShadow` / `updateShadow` call registers. -/
def shadowCallListeners (callId : ℕ) (ls : List EventListener) :
    List EventListener :=
  ls ++ [{ owner := callId, event := .shadowUpdate },
         { owner := callId, event := .shadowRejected }]

/-- Listener-table effect of one `getShadow` / `updateShadow` call that
settles: the call's two `once` listeners are registered, the winning
branch's own `once` listener is consumed by firing, and the settling
handler calls `removeAllListeners` on the other event (on both events in
the timeout branch) — exactly the teardown the source performs. -/
def shadowCallSettle (outcome : ShadowRaceOutcome) (callId : ℕ)
    (ls : List EventListener) : List EventListener :=
  let ls := shadowCallListeners callId ls
  match outcome with
  | .accepted =>
    removeAllListeners .shadowRejected
      (ls.erase { owner := callId, event := .shadowUpdate })
  | .rejected =>
    removeAllListeners .shadowUpdate
      (ls.erase { owner := callId, event := .shadowRejected })
  | .timedOut =>
    removeAllListeners .shadowRejected (removeAllListeners .shadowUpdate ls)

/-! ## Concrete shadow payloads used in evaluations -/

/-- A reported section carrying only the alternative hours/minutes
`cycleTimeRemaining` object (5 hours). -/
def c3Reported : RawShadowReported :=
  { cycleInfo := some ({ cycleTimeRemaining := some ({ hours := some 5, minutes := some 0 }) }) }

/-- The corresponding full shadow payload. -/
def c3Shadow : ShadowPayload :=
  .obj ({ state := some ({ reported := some c3Reported }) })

/-- A legacy reported section with a `cycle_info` hex string: 16 elapsed
minutes. -/
def c3LegacyReported : RawShadowReported :=
  { cycle_info := some "0010" }

/-- A reported section with a validated cycle-start timestamp and a 100
minute cleaning mode. -/
def c3TimestampReported : RawShadowReported :=
  { cycleInfo := some
      ({ cycleStartTimeUTC := some 2000000000
         cleaningMode := some ({ mode := none, cycleTime := some 100 }) }) }

/-- A manager holding credentials that expire 30 minutes after epoch. -/
def c6Manager30min : CredentialManagerState :=
  { awsCredentials := some
      ({ accessKeyId := "AKIA"
         secretAccessKey := "secret"
         sessionToken := "token"
         expiration := 1800000 }) }

/-- A manager holding credentials that expire 2 hours after epoch. -/
def c6Manager2h : CredentialManagerState :=
  { awsCredentials := some
      ({ accessKeyId := "AKIA"
         secretAccessKey := "secret"
         sessionToken := "token"
         expiration := 7200000 }) }

/-- A manager holding credentials that expire exactly one refresh buffer
after epoch. -/
def c6ManagerBoundary : CredentialManagerState :=
  { awsCredentials := some
      ({ accessKeyId := "AKIA"
         secretAccessKey := "secret"
         sessionToken := "token"
         expiration := 3600000 }) }

/-! ## Encode/decode lemmas for the hex fields -/

theorem beVal_foldl (a : Nat) (l : List Nib) :
    l.foldl (fun a d => 16 * a + d.val) a = 16 ^ l.length * a + beVal l := by
  induction l generalizing a with
  | nil => simp [beVal]
  | cons d t ih =>
    simp only [List.foldl_cons, beVal, List.length_cons]
    rw [ih (16 * a + d.val), ih (16 * 0 + d.val)]
    ring

theorem beVal_append (xs ys : List Nib) :
    beVal (xs ++ ys) = 16 ^ ys.length * beVal xs + beVal ys := by
  simp only [beVal, List.foldl_append]
  exact beVal_foldl _ ys

theorem beVal_replicate_zero_append (k : Nat) (l : List Nib) :
    beVal (List.replicate k 0 ++ l) = beVal l := by
  rw [beVal_append]
  have h : beVal (List.replicate k (0 : Nib)) = 0 := by
    induction k with
    | zero => simp [beVal]
    | succ n ih =>
      simp only [List.replicate_succ, beVal, List.foldl_cons] at *
      simpa using ih
  simp [h]

theorem beVal_padStart (k : Nat) (l : List Nib) :
    beVal (padStart k l) = beVal l :=
  beVal_replicate_zero_append _ _

theorem padStart_length (k : Nat) (l : List Nib) (h : l.length ≤ k) :
    (padStart k l).length = k := by
  simp [padStart]
  omega

theorem hexDigitsRevAux_spec (fuel n : Nat) (h : n ≤ fuel) :
    beVal (hexDigitsRevAux fuel n).reverse = n := by
  induction fuel generalizing n with
  | zero =>
    interval_cases n
    simp [hexDigitsRevAux, beVal]
  | succ f ih =>
    by_cases hn : n = 0
    · simp [hexDigitsRevAux, hn, beVal]
    · have hdiv : n / 16 ≤ f := by
        have : n / 16 < n := Nat.div_lt_self (Nat.pos_of_ne_zero hn) (by norm_num)
        omega
      simp only [hexDigitsRevAux, hn, if_false, List.reverse_cons]
      rw [beVal_append, ih _ hdiv]
      simp [beVal]
      omega

theorem hexDigitsRevAux_length (fuel n k : Nat) (hf : n ≤ fuel) (h : n < 16 ^ k) :
    (hexDigitsRevAux fuel n).length ≤ k := by
  induction fuel generalizing n k with
  | zero =>
    interval_cases n
    simp [hexDigitsRevAux]
  | succ f ih =>
    by_cases hn : n = 0
    · simp [hexDigitsRevAux, hn]
    · have hk : k ≠ 0 := by
        rintro rfl
        simp at h
        omega
      obtain ⟨k', rfl⟩ : ∃ k', k = k' + 1 := ⟨k - 1, by omega⟩
      have hdiv : n / 16 ≤ f := by
        have : n / 16 < n := Nat.div_lt_self (Nat.pos_of_ne_zero hn) (by norm_num)
        omega
      have hlt : n / 16 < 16 ^ k' := by
        rw [Nat.div_lt_iff_lt_mul (by norm_num : 0 < 16)]
        calc n < 16 ^ (k' + 1) := h
        _ = 16 ^ k' * 16 := by ring
      simp only [hexDigitsRevAux, hn, if_false, List.length_cons]
      have := ih (n / 16) k' hdiv hlt
      omega

theorem beVal_toHexNibbles (n : Nat) : beVal (toHexNibbles n) = n := by
  by_cases hn : n = 0
  · simp [toHexNibbles, hn, beVal]
  · simp only [toHexNibbles, hn, if_false]
    exact hexDigitsRevAux_spec n n le_rfl

theorem toHexNibbles_length (n k : Nat) (hk : 0 < k) (h : n < 16 ^ k) :
    (toHexNibbles n).length ≤ k := by
  by_cases hn : n = 0
  · simp [toHexNibbles, hn]
    omega
  · simp only [toHexNibbles, hn, if_false, List.length_reverse]
    exact hexDigitsRevAux_length n n k le_rfl h

/-- A value below `16 ^ k`, rendered with `toString(16).padStart(k, '0')`,
is exactly `k` hex characters whose big-endian read recovers the value. -/
theorem padStart_toHexNibbles_spec (k n : Nat) (hk : 0 < k) (h : n < 16 ^ k) :
    (padStart k (toHexNibbles n)).length = k ∧
      beVal (padStart k (toHexNibbles n)) = n := by
  refine ⟨padStart_length _ _ (toHexNibbles_length n k hk h), ?_⟩
  rw [beVal_padStart, beVal_toHexNibbles]

theorem calculateChecksum_length (m : List Nib) :
    (calculateChecksum m).length = 4 := by
  have h1 := (padStart_toHexNibbles_spec 2 (hexPairsSum m % 65536 % 256)
    (by norm_num) (by have := Nat.mod_lt (hexPairsSum m % 65536) (show 0 < 256 by norm_num); norm_num; omega)).1
  have h2 := (padStart_toHexNibbles_spec 2 (hexPairsSum m % 65536 / 256 % 256)
    (by norm_num) (by have := Nat.mod_lt (hexPairsSum m % 65536 / 256) (show 0 < 256 by norm_num); norm_num; omega)).1
  simp only [calculateChecksum, List.length_append]
  omega

/-- Re-summing all bytes before the checksum field reproduces the checksum
field: the little-endian read of `calculateChecksum m` is the 16-bit-masked
additive sum of `m`. -/
theorem leWord_calculateChecksum (m : List Nib) :
    leWord (calculateChecksum m) = hexPairsSum m % 65536 := by
  have hlow : hexPairsSum m % 65536 % 256 < 16 ^ 2 := by
    have := Nat.mod_lt (hexPairsSum m % 65536) (show 0 < 256 by norm_num)
    norm_num
    omega
  have hhigh : hexPairsSum m % 65536 / 256 % 256 < 16 ^ 2 := by
    have := Nat.mod_lt (hexPairsSum m % 65536 / 256) (show 0 < 256 by norm_num)
    norm_num
    omega
  have l1 := padStart_toHexNibbles_spec 2 _ (by norm_num) hlow
  have l2 := padStart_toHexNibbles_spec 2 _ (by norm_num) hhigh
  simp only [calculateChecksum, leWord]
  rw [List.take_left' l1.1, List.drop_left' l1.1, l1.2, l2.2]
  have hc : hexPairsSum m % 65536 < 65536 :=
    Nat.mod_lt _ (by norm_num)
  have : hexPairsSum m % 65536 / 256 % 256 = hexPairsSum m % 65536 / 256 :=
    Nat.mod_eq_of_lt (by omega)
  rw [this]
  omega

theorem hexPairsXor_lt (m : List Nib) : hexPairsXor m < 256 := by
  have hpow : (2 : ℕ) ^ 8 = 256 := by norm_num
  induction m using hexPairsXor.induct with
  | case1 a b rest ih =>
    simp only [hexPairsXor]
    have ha := a.isLt
    have hb := b.isLt
    have h1 : 16 * a.val + b.val < 2 ^ 8 := by omega
    have h2 : hexPairsXor rest < 2 ^ 8 := by omega
    have := Nat.xor_lt_two_pow h1 h2
    omega
  | case2 a =>
    have := a.isLt
    simp only [hexPairsXor]
    omega
  | case3 =>
    simp [hexPairsXor]

theorem mqttCalculateChecksum_length (m : List Nib) :
    (mqttCalculateChecksum m).length = 2 := by
  have h := (padStart_toHexNibbles_spec 2 (hexPairsXor m) (by norm_num)
    (by norm_num; exact hexPairsXor_lt m)).1
  simpa [mqttCalculateChecksum] using h

/-! ## Claim C1 -/

/-- C1 (counterexample): the claim reads the 2-byte declared length field as
little-endian and asserts it equals the payload byte count.  For a 1-byte
payload, `buildCommand` emits the length field `0001` (high byte first), and
its little-endian read is 256, not 1: the length field is big-endian, unlike
the checksum field. -/
theorem C1_counterexample :
    buildCommand sampleConfig "turnOnRobot" (some [0, 5]) =
      some [10, 11, 0, 3, 0, 0, 0, 0, 0, 1, 0, 0, 0, 1, 0, 5, 11, 5, 0, 0] ∧
    leWord (List.take 4 (List.drop 10
      ([10, 11, 0, 3, 0, 0, 0, 0, 0, 1, 0, 0, 0, 1, 0, 5, 11, 5, 0, 0] : List Nib))) ≠
      ([0, 5] : List Nib).length / 2 := by
  constructor
  · decide
  · decide

/-- C1 (amended): for every command name in the table and every payload of
at most 65 535 bytes, `buildCommand` returns a frame consisting of the
header, a 2-byte length field whose BIG-endian read equals the payload byte
count, the payload, and a 2-byte checksum field whose LITTLE-endian read is
the 16-bit-masked additive sum of all preceding frame bytes — so re-summing
all bytes before the checksum field reproduces the checksum field exactly,
but the two 2-byte fields do not share a byte order. -/
theorem C1_amended (cfg : BLECommandsConfig) (name : String)
    (cmdDef : CommandDefinition) (data : Option (List Nib))
    (hdef : getCommandDefinition cfg name = some cmdDef)
    (heven : (data.getD []).length % 2 = 0)
    (hsize : (data.getD []).length / 2 ≤ 65535) :
    ∃ hdr lenF chk : List Nib,
      buildCommand cfg name data = some (hdr ++ lenF ++ data.getD [] ++ chk) ∧
      hdr = cfg.message_pattern.sop_preamble ++ cfg.message_pattern.src ++
        cmdDef.destination ++ cmdDef.opcode ∧
      lenF.length = 4 ∧
      beVal lenF = (data.getD []).length / 2 ∧
      chk.length = 4 ∧
      leWord chk = hexPairsSum (hdr ++ lenF ++ data.getD []) % 65536 := by
  have hbound : (data.getD []).length / 2 < 16 ^ 4 := by
    have h16 : (16 : ℕ) ^ 4 = 65536 := by norm_num
    omega
  obtain ⟨hl4, hbe⟩ :=
    padStart_toHexNibbles_spec 4 ((data.getD []).length / 2) (by norm_num) hbound
  refine ⟨cfg.message_pattern.sop_preamble ++ cfg.message_pattern.src ++
      cmdDef.destination ++ cmdDef.opcode,
    padStart 4 (toHexNibbles ((data.getD []).length / 2)),
    calculateChecksum (cfg.message_pattern.sop_preamble ++ cfg.message_pattern.src ++
      cmdDef.destination ++ cmdDef.opcode ++
      (padStart 4 (toHexNibbles ((data.getD []).length / 2)) ++ data.getD [])),
    ?_, rfl, hl4, hbe, calculateChecksum_length _, ?_⟩
  · simp only [buildCommand, hdef]
    simp [List.append_assoc]
  · rw [leWord_calculateChecksum]
    congr 1
    simp [List.append_assoc]

/-- C1 (witness): the amended claim evaluated on the sample table with a
one-byte payload. -/
theorem C1_amended_witness :
    ∃ hdr lenF chk : List Nib,
      buildCommand sampleConfig "turnOnRobot" (some [0, 5]) =
        some (hdr ++ lenF ++ [0, 5] ++ chk) ∧
      lenF.length = 4 ∧ beVal lenF = 1 ∧ chk.length = 4 ∧
      leWord chk = hexPairsSum (hdr ++ lenF ++ [0, 5]) % 65536 := by
  obtain ⟨hdr, lenF, chk, h1, _, h3, h4, h5, h6⟩ :=
    C1_amended sampleConfig "turnOnRobot"
      { destination := [0, 0, 0, 0], opcode := [0, 1] } (some [0, 5])
      (by decide) (by decide) (by decide)
  exact ⟨hdr, lenF, chk, h1, h3, h4, h5, h6⟩

/-! ## Claim C2 -/

/-- C2 (failing input): `buildCommand` has no payload-size check at all.  On
a known command name with a 65 536-byte payload it does not return failure:
it returns a frame, and the declared length field of that frame is rendered
as 5 hex characters instead of 4 (2 bytes), so the frame is malformed rather
than refused. -/
theorem C2_oversize_returns_frame :
    (buildCommand sampleConfig "turnOnRobot"
        (some (List.replicate 131072 (0 : Nib)))).isSome = true ∧
    (List.replicate 131072 (0 : Nib)).length / 2 = 65536 ∧
    65536 > 65535 ∧
    (padStart 4 (toHexNibbles ((List.replicate 131072 (0 : Nib)).length / 2))).length = 5 := by
  have hlen : (List.replicate 131072 (0 : Nib)).length = 131072 :=
    List.length_replicate 131072 0
  refine ⟨rfl, by rw [hlen], by norm_num, ?_⟩
  rw [hlen]
  decide

/-! ## Claim C9 -/

/-- C9 (counterexample): the standalone codec and the session client encode
the very same command to different frames: the codec appends a 2-byte
little-endian additive checksum, the session client a 1-byte XOR checksum. -/
theorem C9_counterexample :
    mqttBuildCommand sampleConfig "turnOnRobot" none ≠
      buildCommand sampleConfig "turnOnRobot" none := by
  decide

/-- C9 (amended): the two encoders succeed on exactly the same inputs and
agree on every byte before the checksum field (preamble, source,
destination, opcode, length field and payload), but their checksum fields
differ in kind: the codec appends the 4-hex-char little-endian 16-bit
additive sum, the session client the 2-hex-char XOR byte. -/
theorem C9_amended (cfg : BLECommandsConfig) (name : String)
    (data : Option (List Nib)) :
    (buildCommand cfg name data = none ↔ mqttBuildCommand cfg name data = none) ∧
    (∀ f g : List Nib, buildCommand cfg name data = some f →
      mqttBuildCommand cfg name data = some g →
      ∃ m : List Nib,
        f = m ++ calculateChecksum m ∧
        g = m ++ mqttCalculateChecksum m ∧
        f.length = m.length + 4 ∧
        g.length = m.length + 2 ∧
        f.take m.length = m ∧
        g.take m.length = m) := by
  cases hdef : getCommandDefinition cfg name with
  | none =>
    constructor
    · simp [buildCommand, mqttBuildCommand, hdef]
    · intro f g hf
      simp [buildCommand, hdef] at hf
  | some cmdDef =>
    constructor
    · simp [buildCommand, mqttBuildCommand, hdef]
    · intro f g hf hg
      simp only [buildCommand, mqttBuildCommand, hdef, Option.some.injEq] at hf hg
      subst hf
      subst hg
      refine ⟨_, rfl, rfl, ?_, ?_, List.take_left _ _, List.take_left _ _⟩
      · simp [calculateChecksum_length]
        omega
      · simp [mqttCalculateChecksum_length]
        omega

/-- C9 (witness): the amended claim evaluated on the sample table: the
common prefix is the 14 hex characters before the checksum fields. -/
theorem C9_amended_witness :
    ∃ m : List Nib,
      ([10, 11, 0, 3, 0, 0, 0, 0, 0, 1, 0, 0, 0, 0, 10, 15, 0, 0] : List Nib) =
        m ++ calculateChecksum m ∧
      ([10, 11, 0, 3, 0, 0, 0, 0, 0, 1, 0, 0, 0, 0, 10, 9] : List Nib) =
        m ++ mqttCalculateChecksum m ∧
      ([10, 11, 0, 3, 0, 0, 0, 0, 0, 1, 0, 0, 0, 0, 10, 15, 0, 0] : List Nib).length =
        m.length + 4 ∧
      ([10, 11, 0, 3, 0, 0, 0, 0, 0, 1, 0, 0, 0, 0, 10, 9] : List Nib).length =
        m.length + 2 := by
  obtain ⟨m, h1, h2, h3, h4, _, _⟩ :=
    (C9_amended sampleConfig "turnOnRobot" none).2
      [10, 11, 0, 3, 0, 0, 0, 0, 0, 1, 0, 0, 0, 0, 10, 15, 0, 0]
      [10, 11, 0, 3, 0, 0, 0, 0, 0, 1, 0, 0, 0, 0, 10, 9]
      (by decide) (by decide)
  exact ⟨m, h1, h2, h3, h4⟩

/-! ## Which parser blocks touch `cycleTimeRemaining` -/

theorem newConnectionStep_ctr (r : RawShadowReported) (s : RobotStateUpdate) :
    (newConnectionStep r s).cycleTimeRemaining = s.cycleTimeRemaining := by
  unfold newConnectionStep
  split <;> rfl

theorem newSystemStateStep_ctr (r : RawShadowReported) (s : RobotStateUpdate) :
    (newSystemStateStep r s).cycleTimeRemaining = s.cycleTimeRemaining := by
  unfold newSystemStateStep
  repeat' (first | split | dsimp only)

theorem newRobotStateStep_ctr (r : RawShadowReported) (s : RobotStateUpdate) :
    (newRobotStateStep r s).cycleTimeRemaining = s.cycleTimeRemaining := by
  unfold newRobotStateStep
  repeat' (first | split | dsimp only)

theorem newTemperatureStep_ctr (r : RawShadowReported) (s : RobotStateUpdate) :
    (newTemperatureStep r s).cycleTimeRemaining = s.cycleTimeRemaining := by
  unfold newTemperatureStep
  split <;> rfl

theorem newFilterStep_ctr (r : RawShadowReported) (s : RobotStateUpdate) :
    (newFilterStep r s).cycleTimeRemaining = s.cycleTimeRemaining := rfl

theorem newFaultStep_ctr (r : RawShadowReported) (s : RobotStateUpdate) :
    (newFaultStep r s).cycleTimeRemaining = s.cycleTimeRemaining := by
  unfold newFaultStep
  split <;> rfl

theorem newLedStep_ctr (r : RawShadowReported) (s : RobotStateUpdate) :
    (newLedStep r s).cycleTimeRemaining = s.cycleTimeRemaining := by
  unfold newLedStep
  split <;> rfl

theorem newWeeklyStep_ctr (r : RawShadowReported) (s : RobotStateUpdate) :
    (newWeeklyStep r s).cycleTimeRemaining = s.cycleTimeRemaining := by
  unfold newWeeklyStep
  split <;> rfl

theorem newDelayStep_ctr (r : RawShadowReported) (s : RobotStateUpdate) :
    (newDelayStep r s).cycleTimeRemaining = s.cycleTimeRemaining := by
  unfold newDelayStep
  repeat' (first | split | dsimp only)

theorem legacyMuStep_ctr (r : RawShadowReported) (s : RobotStateUpdate) :
    (legacyMuStep r s).cycleTimeRemaining = s.cycleTimeRemaining := by
  unfold legacyMuStep
  split <;> rfl

theorem legacySmStep_ctr (r : RawShadowReported) (s : RobotStateUpdate) :
    (legacySmStep r s).cycleTimeRemaining = s.cycleTimeRemaining := by
  unfold legacySmStep
  split <;> rfl

theorem legacyCleaningModeStep_ctr (r : RawShadowReported) (s : RobotStateUpdate) :
    (legacyCleaningModeStep r s).cycleTimeRemaining = s.cycleTimeRemaining := by
  unfold legacyCleaningModeStep
  split <;> rfl

theorem legacyFilterStep_ctr (r : RawShadowReported) (s : RobotStateUpdate) :
    (legacyFilterStep r s).cycleTimeRemaining = s.cycleTimeRemaining := by
  unfold legacyFilterStep
  split <;> rfl

theorem legacyTemperatureStep_ctr (r : RawShadowReported) (s : RobotStateUpdate) :
    (legacyTemperatureStep r s).cycleTimeRemaining = s.cycleTimeRemaining := by
  unfold legacyTemperatureStep
  split <;> rfl

theorem legacySmartStep_ctr (r : RawShadowReported) (s : RobotStateUpdate) :
    (legacySmartStep r s).cycleTimeRemaining = s.cycleTimeRemaining := by
  unfold legacySmartStep
  split <;> rfl

theorem legacyFaultsStep_ctr (r : RawShadowReported) (s : RobotStateUpdate) :
    (legacyFaultsStep r s).cycleTimeRemaining = s.cycleTimeRemaining := by
  unfold legacyFaultsStep
  repeat' (first | split | dsimp only)

/-- The legacy cycle-info block only ever writes a value clamped below at
zero. -/
theorem legacyCycleInfoStep_ctr (r : RawShadowReported) (s : RobotStateUpdate)
    (hs : s.cycleTimeRemaining = none) :
    (legacyCycleInfoStep r s).cycleTimeRemaining = none ∨
    ∃ v : ℚ, (legacyCycleInfoStep r s).cycleTimeRemaining = some v ∧ 0 ≤ v := by
  unfold legacyCycleInfoStep
  repeat' (first | split | dsimp only)
  all_goals first
    | exact Or.inl hs
    | exact Or.inr ⟨_, rfl, le_max_left _ _⟩

/-- The validated-timestamp branch of the cycle-info block writes a value in
`[0, cycle time used]`; with the alternative hours/minutes object absent, no
other write to `cycleTimeRemaining` happens in this block. -/
theorem newCycleInfoStep_ctr (r : RawShadowReported) (now : ℤ) (s : RobotStateUpdate)
    (hs : s.cycleTimeRemaining = none)
    (halt : r.cycleInfo.bind (fun ci => ci.cycleTimeRemaining) = none) :
    (newCycleInfoStep r now s).cycleTimeRemaining = none ∨
    ∃ w : ℚ, (newCycleInfoStep r now s).cycleTimeRemaining = some w ∧
      0 ≤ w ∧ w ≤ newFormatCycleTime r := by
  rcases hci : r.cycleInfo with _ | ci
  · unfold newCycleInfoStep
    rw [hci]
    exact Or.inl hs
  · have hrem : ci.cycleTimeRemaining = none := by
      rw [hci] at halt
      simpa using halt
    have hct : newFormatCycleTime r =
        jsNumOr (ci.cleaningMode.bind (fun cm => cm.cycleTime)) DEFAULT_CYCLE_TIME_MINUTES := by
      simp [newFormatCycleTime, hci]
    unfold newCycleInfoStep
    rw [hci]
    simp only [hrem]
    rw [hct]
    repeat' (first | split | dsimp only)
    all_goals first
      | exact Or.inl hs
      | (rename_i hguard
         refine Or.inr ⟨_, rfl, le_max_left _ _, ?_⟩
         simp only [Bool.and_eq_true, decide_eq_true_eq] at hguard
         obtain ⟨hge, hlt⟩ := hguard
         have hctpos : (0 : ℚ) ≤ jsNumOr (ci.cleaningMode.bind (fun cm => cm.cycleTime))
             DEFAULT_CYCLE_TIME_MINUTES := le_trans hge (le_of_lt hlt)
         exact max_le hctpos (by linarith))

/-! ## Claim C3 -/

/-- C3 (counterexample): an hours/minutes `cycleTimeRemaining` object of 5
hours, parsed over the default previous state, yields
`cycleTimeRemaining = 300 > 120 = cycleTime`: the alternative hours/minutes
path performs no clamp to `cycleTime`. -/
theorem C3_counterexample :
    (parseShadowState c3Shadow none 0).cycleTimeRemaining = 300 ∧
    (parseShadowState c3Shadow none 0).cycleTime = 120 ∧
    ¬ ((parseShadowState c3Shadow none 0).cycleTimeRemaining ≤
        (parseShadowState c3Shadow none 0).cycleTime) := by
  have h1 : (parseShadowState c3Shadow none 0).cycleTimeRemaining = 300 := by
    norm_num [parseShadowState, c3Shadow, c3Reported, parseNewFormat, parseLegacyFormat,
      newConnectionStep, newSystemStateStep, newRobotStateStep, newCycleInfoStep,
      newTemperatureStep, newFilterStep, newFaultStep, newLedStep, newWeeklyStep,
      newDelayStep, legacyMuStep, legacySmStep, legacyCleaningModeStep, legacyFilterStep,
      legacyTemperatureStep, legacySmartStep, legacyCycleInfoStep, legacyFaultsStep,
      mergeState, createDefaultState, jsNumOr, jsOrNum, jsNumTruthy,
      jsStrTruthy, parseFilterStatus, parseAllFaults, parseRobotError, parsePwsError,
      SECONDS_PER_MINUTE, DEFAULT_CYCLE_TIME_MINUTES]
  have h2 : (parseShadowState c3Shadow none 0).cycleTime = 120 := by
    norm_num [parseShadowState, c3Shadow, c3Reported, parseNewFormat, parseLegacyFormat,
      newConnectionStep, newSystemStateStep, newRobotStateStep, newCycleInfoStep,
      newTemperatureStep, newFilterStep, newFaultStep, newLedStep, newWeeklyStep,
      newDelayStep, legacyMuStep, legacySmStep, legacyCleaningModeStep, legacyFilterStep,
      legacyTemperatureStep, legacySmartStep, legacyCycleInfoStep, legacyFaultsStep,
      mergeState, createDefaultState, jsNumOr, jsOrNum, jsNumTruthy,
      jsStrTruthy, parseFilterStatus, parseAllFaults, parseRobotError, parsePwsError,
      SECONDS_PER_MINUTE, DEFAULT_CYCLE_TIME_MINUTES]
  refine ⟨h1, h2, ?_⟩
  rw [h1, h2]
  norm_num

/-- C3 (amended): the clamp `0 ≤ cycleTimeRemaining` holds for every value
the legacy hex path writes, and the cycle-start-timestamp path писes a value
within `[0, cycleTime used]` whenever the alternative hours/minutes object
is absent; the alternative path itself writes `hours * 60 + minutes`
unclamped, so the upper bound against the merged `cycleTime` does not hold
in general. -/
theorem C3_amended (reported : RawShadowReported) (now : ℤ) :
    (∀ v : ℚ, (parseLegacyFormat reported).cycleTimeRemaining = some v → 0 ≤ v) ∧
    (reported.cycleInfo.bind (fun ci => ci.cycleTimeRemaining) = none →
      ∀ w : ℚ, (parseNewFormat reported now).cycleTimeRemaining = some w →
        0 ≤ w ∧ w ≤ newFormatCycleTime reported) := by
  constructor
  · intro v hv
    unfold parseLegacyFormat at hv
    rw [legacyFaultsStep_ctr] at hv
    have hpre : (legacySmartStep reported
        (legacyTemperatureStep reported
          (legacyFilterStep reported
            (legacyCleaningModeStep reported
              (legacySmStep reported
                (legacyMuStep reported {})))))).cycleTimeRemaining = none := by
      rw [legacySmartStep_ctr, legacyTemperatureStep_ctr, legacyFilterStep_ctr,
        legacyCleaningModeStep_ctr, legacySmStep_ctr, legacyMuStep_ctr]
    rcases legacyCycleInfoStep_ctr reported _ hpre with h | ⟨v', hv', h0⟩
    · rw [h] at hv
      cases hv
    · rw [hv'] at hv
      cases hv
      exact h0
  · intro halt w hw
    unfold parseNewFormat at hw
    rw [newDelayStep_ctr, newWeeklyStep_ctr, newLedStep_ctr, newFaultStep_ctr,
      newFilterStep_ctr, newTemperatureStep_ctr] at hw
    have hpre : (newRobotStateStep reported
        (newSystemStateStep reported
          (newConnectionStep reported {}))).cycleTimeRemaining = none := by
      rw [newRobotStateStep_ctr, newSystemStateStep_ctr, newConnectionStep_ctr]
    rcases newCycleInfoStep_ctr reported now _ hpre halt with h | ⟨w', hw', h0, h1⟩
    · rw [h] at hw
      cases hw
    · rw [hw'] at hw
      cases hw
      exact ⟨h0, h1⟩

/-- C3 (witness): the amended claim evaluated on a legacy hex string of 16
elapsed minutes and on a timestamp 50 minutes into a 100-minute cycle. -/
theorem C3_amended_witness :
    (0 : ℚ) ≤ 104 ∧ ((0 : ℚ) ≤ 50 ∧ (50 : ℚ) ≤ newFormatCycleTime c3TimestampReported) := by
  have hleg : (parseLegacyFormat c3LegacyReported).cycleTimeRemaining = some 104 := by
    have hp : jsParseInt16 (("0010" : String).take 4) = some 16 := by decide
    have hempty : ("0010" : String).isEmpty = false := by decide
    have hlen : ("0010" : String).length = 4 := by decide
    norm_num [parseLegacyFormat, c3LegacyReported, hempty, hlen, legacyMuStep, legacySmStep,
      legacyCleaningModeStep, legacyFilterStep, legacyTemperatureStep, legacySmartStep,
      legacyCycleInfoStep, legacyFaultsStep, hp, jsNumOr, DEFAULT_CYCLE_TIME_MINUTES,
      max_def]
  have hts : (parseNewFormat c3TimestampReported 2000003000).cycleTimeRemaining = some 50 := by
    norm_num [parseNewFormat, c3TimestampReported, newConnectionStep, newSystemStateStep,
      newRobotStateStep, newCycleInfoStep, newTemperatureStep, newFilterStep, newFaultStep,
      newLedStep, newWeeklyStep, newDelayStep, jsNumOr, jsOrNum, jsNumTruthy, jsStrTruthy,
      parseFilterStatus, parseAllFaults, parseRobotError, parsePwsError,
      SECONDS_PER_MINUTE, DEFAULT_CYCLE_TIME_MINUTES, MIN_VALID_UNIX_TIMESTAMP, max_def]
  refine ⟨(C3_amended c3LegacyReported 0).1 104 hleg, ?_⟩
  exact (C3_amended c3TimestampReported 2000003000).2 (by decide) 50 hts

/-! ## Claim C4 -/

/-- C4: merging the empty update is the identity, and `mergeState` copies
exactly the fields whose value in the update is defined: every `none` field
of the update leaves the previous state's field untouched, and every
`some v` field overwrites it with `v`. -/
theorem C4_mergeState (prev : ParsedRobotState) (upd : RobotStateUpdate) :
    mergeState prev emptyUpdate = prev ∧
    (upd.connected = none → (mergeState prev upd).connected = prev.connected) ∧
    (upd.muState = none → (mergeState prev upd).muState = prev.muState) ∧
    (upd.pwsState = none → (mergeState prev upd).pwsState = prev.pwsState) ∧
    (upd.isCleaning = none → (mergeState prev upd).isCleaning = prev.isCleaning) ∧
    (upd.cleaningMode = none → (mergeState prev upd).cleaningMode = prev.cleaningMode) ∧
    (upd.cycleTime = none → (mergeState prev upd).cycleTime = prev.cycleTime) ∧
    (upd.cycleTimeRemaining = none →
      (mergeState prev upd).cycleTimeRemaining = prev.cycleTimeRemaining) ∧
    (upd.filterStatus = none → (mergeState prev upd).filterStatus = prev.filterStatus) ∧
    (upd.temperature = none → (mergeState prev upd).temperature = prev.temperature) ∧
    (upd.isSmartMode = none → (mergeState prev upd).isSmartMode = prev.isSmartMode) ∧
    (upd.cycleStartTime = none → (mergeState prev upd).cycleStartTime = prev.cycleStartTime) ∧
    (upd.faultCode = none → (mergeState prev upd).faultCode = prev.faultCode) ∧
    (upd.faultDescription = none →
      (mergeState prev upd).faultDescription = prev.faultDescription) ∧
    (upd.ledEnabled = none → (mergeState prev upd).ledEnabled = prev.ledEnabled) ∧
    (upd.ledIntensity = none → (mergeState prev upd).ledIntensity = prev.ledIntensity) ∧
    (upd.weeklyEnabled = none → (mergeState prev upd).weeklyEnabled = prev.weeklyEnabled) ∧
    (upd.delayEnabled = none → (mergeState prev upd).delayEnabled = prev.delayEnabled) ∧
    (upd.delayTime = none → (mergeState prev upd).delayTime = prev.delayTime) ∧
    (∀ v : Bool, upd.connected = some v → (mergeState prev upd).connected = v) ∧
    (∀ v : ℚ, upd.muState = some v → (mergeState prev upd).muState = v) ∧
    (∀ v : ℚ, upd.pwsState = some v → (mergeState prev upd).pwsState = v) ∧
    (∀ v : Bool, upd.isCleaning = some v → (mergeState prev upd).isCleaning = v) ∧
    (∀ v : String, upd.cleaningMode = some v → (mergeState prev upd).cleaningMode = v) ∧
    (∀ v : ℚ, upd.cycleTime = some v → (mergeState prev upd).cycleTime = v) ∧
    (∀ v : ℚ, upd.cycleTimeRemaining = some v →
      (mergeState prev upd).cycleTimeRemaining = v) ∧
    (∀ v : FilterStatus, upd.filterStatus = some v →
      (mergeState prev upd).filterStatus = v) ∧
    (∀ v : ℚ, upd.temperature = some v → (mergeState prev upd).temperature = some v) ∧
    (∀ v : Bool, upd.isSmartMode = some v → (mergeState prev upd).isSmartMode = some v) ∧
    (∀ v : ℚ, upd.cycleStartTime = some v →
      (mergeState prev upd).cycleStartTime = some v) ∧
    (∀ v : ℚ, upd.faultCode = some v → (mergeState prev upd).faultCode = some v) ∧
    (∀ v : String, upd.faultDescription = some v →
      (mergeState prev upd).faultDescription = some v) ∧
    (∀ v : Bool, upd.ledEnabled = some v → (mergeState prev upd).ledEnabled = some v) ∧
    (∀ v : ℚ, upd.ledIntensity = some v → (mergeState prev upd).ledIntensity = some v) ∧
    (∀ v : Bool, upd.weeklyEnabled = some v → (mergeState prev upd).weeklyEnabled = some v) ∧
    (∀ v : Bool, upd.delayEnabled = some v → (mergeState prev upd).delayEnabled = some v) ∧
    (∀ v : ℚ, upd.delayTime = some v → (mergeState prev upd).delayTime = some v) := by
  refine ⟨rfl, ?_, ?_, ?_, ?_, ?_, ?_, ?_, ?_, ?_, ?_, ?_, ?_, ?_, ?_, ?_, ?_, ?_, ?_,
    ?_, ?_, ?_, ?_, ?_, ?_, ?_, ?_, ?_, ?_, ?_, ?_, ?_, ?_, ?_, ?_, ?_, ?_⟩
  all_goals intros
  all_goals simp_all [mergeState]

/-- C4 (witness): merging the empty update into the default state is the
identity; an update defining only `cycleTime` leaves `connected` untouched
and copies `cycleTime`. -/
theorem C4_mergeState_witness :
    mergeState createDefaultState emptyUpdate = createDefaultState ∧
    (mergeState createDefaultState ({ cycleTime := some 60 } : RobotStateUpdate)).connected =
      createDefaultState.connected ∧
    (mergeState createDefaultState ({ cycleTime := some 60 } : RobotStateUpdate)).cycleTime = 60 := by
  obtain ⟨hid, hconn, _, _, _, _, _, _, _, _, _, _, _, _, _, _, _, _, _,
    _, _, _, _, _, hctcopy, _, _, _, _, _, _, _, _, _, _, _, _⟩ :=
    C4_mergeState createDefaultState ({ cycleTime := some 60 } : RobotStateUpdate)
  exact ⟨hid, hconn rfl, hctcopy 60 rfl⟩

/-! ## Claim C10 -/

/-- C10: `parseShadowState` is the identity on the previous state (or the
all-defaults state when none is supplied) for every payload that is not an
object or lacks the `state.reported` member; being a total Lean function,
it throws nothing. -/
theorem C10_guard_identity (shadow : ShadowPayload) (prev : Option ParsedRobotState)
    (now : ℤ) (h : shadowReported shadow = none) :
    parseShadowState shadow prev now = prev.getD createDefaultState := by
  cases shadow with
  | nullish => rfl
  | obj s =>
    simp only [shadowReported] at h
    simp [parseShadowState, h]

/-- C10 (witness): a nullish payload over a concrete previous state. -/
theorem C10_guard_identity_witness :
    parseShadowState .nullish
      (some ({ createDefaultState with isCleaning := true, cycleTimeRemaining := 7 })) 99 =
      { createDefaultState with isCleaning := true, cycleTimeRemaining := 7 } :=
  C10_guard_identity .nullish
    (some ({ createDefaultState with isCleaning := true, cycleTimeRemaining := 7 })) 99 rfl

/-! ## Claim C7 -/

theorem isRealErrorCode_spec (e : Option ℚ) (h : isRealErrorCode e = true) :
    ∃ v : ℚ, e = some v ∧ v ≠ 0 ∧ v ≠ 255 ∧ v ≠ 65535 := by
  cases e with
  | none => simp [isRealErrorCode] at h
  | some v =>
    refine ⟨v, rfl, ?_⟩
    simpa [isRealErrorCode, NO_ERROR_CODES, ERROR_CODE_NO_ERROR,
      ERROR_CODE_NOT_APPLICABLE] using h

theorem parseRobotError_code (ro : Option RobotErrorData) (cc : Option ℚ) (ipe : Bool)
    (f : FaultInfo) (h : parseRobotError ro cc ipe = some f) :
    f.code ≠ 0 ∧ f.code ≠ 255 ∧ f.code ≠ 65535 := by
  cases ro with
  | none => simp [parseRobotError] at h
  | some re =>
    simp only [parseRobotError] at h
    split at h
    · split at h
      · obtain ⟨v, hv, h0, h255, h65535⟩ := isRealErrorCode_spec re.errorCode (by assumption)
        cases h
        simpa [hv] using ⟨h0, h255, h65535⟩
      · cases h
    · cases h

theorem parsePwsError_code (pe : Option RobotErrorData) (cc : Option ℚ)
    (f : FaultInfo) (h : parsePwsError pe cc = some f) :
    f.code ≠ 0 ∧ f.code ≠ 255 ∧ f.code ≠ 65535 := by
  cases pe with
  | none => simp [parsePwsError] at h
  | some p =>
    simp only [parsePwsError] at h
    split at h
    · split at h
      · obtain ⟨v, hv, h0, h255, h65535⟩ := isRealErrorCode_spec p.errorCode (by assumption)
        cases h
        simpa [hv] using ⟨h0, h255, h65535⟩
      · cases h
    · cases h

theorem parseLegacyFaultCodes_code (fc : Option ℚ) (fd : Option String)
    (f : FaultInfo) (h : parseLegacyFaultCodes fc fd = some f) :
    f.code ≠ 0 ∧ f.code ≠ 255 ∧ f.code ≠ 65535 := by
  simp only [parseLegacyFaultCodes] at h
  split at h
  · obtain ⟨v, hv, h0, h255, h65535⟩ := isRealErrorCode_spec fc (by assumption)
    cases h
    simpa [hv] using ⟨h0, h255, h65535⟩
  · cases h

/-- C7: `parseAllFaults` never returns a fault whose code is one of the
reserved sentinels 0, 255 or 65 535, from any of its three sources; and an
appliance (`robotError`) code 2 whose session counter passes the
current-session check — which fails open to true when either counter is
missing — yields an active fault with code 2. -/
theorem C7_fault_resolution (robotError pwsError : Option RobotErrorData)
    (faultCodes : Option FaultCodesData) (systemState : Option SystemStateData) :
    (∀ f : FaultInfo, parseAllFaults robotError pwsError faultCodes systemState = some f →
      f.code ≠ 0 ∧ f.code ≠ 255 ∧ f.code ≠ 65535) ∧
    (∀ re : RobotErrorData, robotError = some re → re.errorCode = some 2 →
      isCurrentSessionError re.turnOnCount (systemState.bind (fun s => s.rTurnOnCount)) = true →
      ∃ f : FaultInfo, parseAllFaults robotError pwsError faultCodes systemState = some f ∧
        f.code = 2 ∧ f.isActive = true) := by
  constructor
  · intro f hf
    simp only [parseAllFaults] at hf
    split at hf
    · cases hf
      exact parseRobotError_code _ _ _ _ (by assumption)
    · split at hf
      · cases hf
        exact parsePwsError_code _ _ _ (by assumption)
      · split at hf
        · exact parseLegacyFaultCodes_code _ _ _ hf
        · cases hf
  · intro re hre h2 hsess
    subst hre
    have hreal : isRealErrorCode re.errorCode = true := by
      rw [h2]
      simp [isRealErrorCode, NO_ERROR_CODES, ERROR_CODE_NO_ERROR, ERROR_CODE_NOT_APPLICABLE]
    have hro : parseRobotError (some re) (systemState.bind (fun s => s.rTurnOnCount))
        (decide (systemState.bind (fun s => s.pwsState) = some "error")) =
        some { code := re.errorCode.getD 0
               description := getFaultDescription (re.errorCode.getD 0)
               isActive := true
               turnOnCount := re.turnOnCount } := by
      unfold parseRobotError
      dsimp only
      rw [hreal, hsess]
      simp
    refine ⟨{ code := re.errorCode.getD 0
              description := getFaultDescription (re.errorCode.getD 0)
              isActive := true
              turnOnCount := re.turnOnCount }, ?_, by simp [h2], rfl⟩
    simp only [parseAllFaults, hro]

/-- C7 (witness): an appliance error with code 2 and no counters anywhere
produces the active code-2 fault. -/
theorem C7_fault_resolution_witness :
    ∃ f : FaultInfo,
      parseAllFaults (some ({ errorCode := some 2 } : RobotErrorData)) none none none = some f ∧
      f.code = 2 ∧ f.isActive = true := by
  exact (C7_fault_resolution (some ({ errorCode := some 2 } : RobotErrorData)) none none none).2
    ({ errorCode := some 2 } : RobotErrorData) rfl rfl rfl

/-! ## Claim C6 -/

/-- C6 (counterexample): at the boundary `expiration = now + buffer` the
claim demands `needsRefresh() = true` (it reads the condition as
`now + buffer >= expiration`), but the source compares with a strict `<`
and returns false. -/
theorem C6_counterexample :
    needsRefresh c6ManagerBoundary 0 = false ∧
    (0 : ℤ) + CREDENTIAL_REFRESH_BUFFER_MS ≥ 3600000 := by
  exact ⟨rfl, by decide⟩

/-- C6 (amended): `needsRefresh()` is true exactly when credentials are
absent or `expiration < now + refreshBufferDuration` (strictly — the
boundary `expiration = now + buffer` yields false), and
`hasValidCredentials()` is true exactly when credentials are present and
`now < expiration`. -/
theorem C6_amended (m : CredentialManagerState) (now : ℤ) :
    (needsRefresh m now = true ↔
      m.awsCredentials = none ∨
        ∃ c : AWSIoTCredentials, m.awsCredentials = some c ∧
          c.expiration < now + CREDENTIAL_REFRESH_BUFFER_MS) ∧
    (hasValidCredentials m now = true ↔
      ∃ c : AWSIoTCredentials, m.awsCredentials = some c ∧ now < c.expiration) := by
  cases h : m.awsCredentials with
  | none => simp [needsRefresh, hasValidCredentials, h]
  | some c => simp [needsRefresh, hasValidCredentials, h]

/-- C6 (witness): 30 minutes to expiry against a 1-hour buffer needs a
refresh and is still valid; 2 hours to expiry does not need one. -/
theorem C6_amended_witness :
    needsRefresh c6Manager30min 0 = true ∧
    needsRefresh c6Manager2h 0 = false ∧
    hasValidCredentials c6Manager30min 0 = true := by
  refine ⟨?_, ?_, ?_⟩
  · exact ((C6_amended c6Manager30min 0).1).mpr (Or.inr ⟨_, rfl, by decide⟩)
  · have h := (C6_amended c6Manager2h 0).1
    cases hb : needsRefresh c6Manager2h 0 with
    | false => rfl
    | true =>
      rcases h.mp hb with hc | ⟨c, hc, hlt⟩
      · exact absurd hc (by simp [c6Manager2h])
      · simp only [c6Manager2h, Option.some.injEq] at hc
        subst hc
        exact absurd hlt (by decide)
  · exact ((C6_amended c6Manager30min 0).2).mpr ⟨_, rfl, by decide⟩

/-! ## Claim C8 -/

/-- A controller whose state is already disconnected is a fixed point of
failed polls and emits nothing more. -/
theorem runRefreshFailures_disconnected (n : ℕ) (d : DolphinDeviceState)
    (h : d.state.connected = false) :
    runRefreshFailures n d = (d, 0) := by
  induction n with
  | zero => rfl
  | succ k ih =>
    unfold runRefreshFailures
    simp [refreshState, h, ih]

/-- C8: a failed poll emits `disconnect` exactly when the state was
connected, and leaves the state disconnected; a successful poll with a
shadow sets `connected` back to true; hence any run of `n + 1` consecutive
failed polls emits exactly one `disconnect` when the state was connected
and none at all otherwise. -/
theorem C8_disconnect_once (d : DolphinDeviceState) (sh : ShadowPayload)
    (now : ℤ) (n : ℕ) :
    (refreshState d .err now).2 = (if d.state.connected then [DeviceEvent.disconnect] else []) ∧
    (refreshState d .err now).1.state.connected = false ∧
    (refreshState d (.ok (some sh)) now).1.state.connected = true ∧
    (runRefreshFailures (n + 1) d).2 = (if d.state.connected then 1 else 0) := by
  refine ⟨?_, ?_, rfl, ?_⟩
  · by_cases h : d.state.connected <;> simp [refreshState, h]
  · by_cases h : d.state.connected <;> simp [refreshState, h]
  · by_cases h : d.state.connected <;>
      simp [runRefreshFailures, refreshState, h, runRefreshFailures_disconnected]

/-! ## Claim C5 -/

/-- C5 (code bug evidence): the settle handlers of `getShadow` /
`updateShadow` call `removeAllListeners` on the shadow events, so a
listener registered beforehand by a different owner (here owner 0, as the
API client's persistent `shadowUpdate` subscription) is gone after the call
settles — in every branch of the race — while listeners on unrelated
events survive. -/
theorem C5_blanket_teardown :
    shadowCallSettle .timedOut 1 [{ owner := 0, event := .shadowUpdate }] = [] ∧
    shadowCallSettle .accepted 1 [{ owner := 0, event := .shadowRejected }] = [] ∧
    shadowCallSettle .rejected 1 [{ owner := 0, event := .shadowUpdate }] = [] ∧
    shadowCallSettle .timedOut 1 [{ owner := 0, event := .dynamicMessage }] =
      [{ owner := 0, event := .dynamicMessage }] := by
  exact ⟨rfl, rfl, rfl, rfl⟩

end Dolphin
